import Mathlib

/-
Verification development for the debug-adapter-protocol client in
crates/dap/src/client.rs. The Rust code is shallowly embedded: pure logic
becomes Lean functions, the `HashMap<u64, ThreadState>` cache becomes an
association list with first-match lookup (hash maps keep keys unique; the
first-match discipline mirrors that), an `unwrap()` panic becomes `none`
in an `Option`-valued result, and the outcome of asynchronous I/O steps
(serialization, channel sends, channel receives) is passed in as an
explicit argument so that the client's purely sequential decision logic
can be stated and proved.
-/

set_option autoImplicit false

namespace DapClient

/-- JSON values, mirroring serde_json::Value (Null, Bool, Number, String,
Array, Object). Numbers are modelled as integers; none of the claims
depends on numeric payload contents. -/
inductive Json where
  | null
  | bool (b : Bool)
  | num (n : Int)
  | str (s : String)
  | arr (elems : List Json)
  | obj (members : List (String × Json))

/-- serde_json::Value implements Default with Value::Null; this is the
value `response.body.unwrap_or_default()` substitutes for an absent body. -/
def Json.jsonDefault : Json := Json.null

/-- Whether a JSON value is an object (`Value::is_object`). -/
def Json.isObj : Json → Bool
  | Json.obj _ => true
  | _ => false

/-- ThreadStatus from client.rs lines 39-46: Running (the `#[default]`
variant), Stopped, Exited, Ended. -/
inductive ThreadStatus where
  | running
  | stopped
  | exited
  | ended
deriving DecidableEq, Repr

/-- Default for ThreadStatus is Running (`#[default]` on the variant). -/
def ThreadStatus.statusDefault : ThreadStatus := ThreadStatus.running

/-- Stack frame as reported by the adapter. Declared in the external
dap_types crate and treated by the spec as an opaque serializable
contract; only its presence in `ThreadState` matters here, so it is
modelled by its identifier field. -/
structure StackFrame where
  id : Nat
deriving DecidableEq, Repr

/-- Variable scope, from the external dap_types crate; modelled by its
variable-reference handle only. -/
structure Scope where
  variables_reference : Nat
deriving DecidableEq, Repr

/-- Variable, from the external dap_types crate; modelled by its name only. -/
structure Variable where
  name : String
deriving DecidableEq, Repr

/-- ThreadState from client.rs lines 52-59: per-thread status, stack
frames, scopes keyed by stack-frame id, variables keyed by a scope's
variable reference, and the currently selected stack frame. The two Rust
HashMaps are modelled as association lists. The source field `variables`
is renamed `vars` because `variables` is reserved in Lean. -/
structure ThreadState where
  status : ThreadStatus
  stack_frames : List StackFrame
  scopes : List (Nat × List Scope)
  vars : List (Nat × List Variable)
  current_stack_frame_id : Option Nat
deriving DecidableEq, Repr

/-- The `#[derive(Default)]` value of ThreadState: Running status, empty
collections, no selected frame. -/
def ThreadState.stateDefault : ThreadState :=
  ⟨ThreadStatus.statusDefault, [], [], [], none⟩

/-- Model of `HashMap::get`: first-match lookup in the association list
that models the map (a hash map holds at most one entry per key). -/
def hashMapGet {α : Type} : List (Nat × α) → Nat → Option α
  | [], _ => none
  | (k, v) :: rest, key => if k = key then some v else hashMapGet rest key

/-- The thread-state cache owned by the client:
`HashMap<u64, ThreadState>` keyed by thread id. -/
def ThreadStates : Type := List (Nat × ThreadState)

/-- client.rs lines 405-407, `thread_state_by_id`:
`self.thread_states.lock().get(&thread_id).cloned().unwrap()`.
`.cloned()` is the identity in the embedding; the `.unwrap()` panic on a
missing key is modelled by `none`. -/
def thread_state_by_id (thread_states : ThreadStates) (thread_id : Nat) :
    Option ThreadState :=
  hashMapGet thread_states thread_id

/-- client.rs lines 395-399, `update_thread_state_status`: fetch the entry
for `thread_id` with `get_mut` and set its `status` field in place; absent
entry means nothing happens. First-match update mirrors `get_mut` on the
association-list model. -/
def update_thread_state_status : ThreadStates → Nat → ThreadStatus → ThreadStates
  | [], _, _ => []
  | (k, s) :: rest, thread_id, status =>
    if k = thread_id then
      (k, ⟨status, s.stack_frames, s.scopes, s.vars,
            s.current_stack_frame_id⟩) :: rest
    else
      (k, s) :: update_thread_state_status rest thread_id status

/-- Response payload. The struct is declared in crates/dap/src/transport.rs
(a sibling file of client.rs, not part of the provided sources); the
fields used here are exactly those client.rs reads — `success` and `body`
— plus the correlation sequence number and error message described by the
spec data model (a sequence number referencing a request, a success flag,
an optional result body or error message). -/
structure Response where
  request_seq : Nat
  success : Bool
  body : Option Json
  message : Option String

/-- Outgoing or incoming request payload, declared in transport.rs; built
by client.rs with a sequence number, a command name, optional arguments
and a reply channel. The reply channel is not part of the message content
and is modelled by the `has_back_ch` flag. -/
structure Request where
  seq : Nat
  command : String
  arguments : Option Json
  has_back_ch : Bool

/-- Decoded adapter event (the Events enum of transport.rs is the
spec-level `Event` payload: name plus untyped body). -/
structure Events where
  event : String
  body : Option Json

/-- Payload, the three-variant tagged union declared in transport.rs and
matched on by client.rs: Request, Response, Event. -/
inductive Payload where
  | request (r : Request)
  | response (r : Response)
  | event (e : Events)

/-- Error taxonomy of `DebugAdapterClient::request` (client.rs lines
350-373): each `?` early return and the two failure arms of the final
match, in the order the code can hit them. -/
inductive RequestError where
  | serializeFailed
  | sendFailed
  | channelClosed
  | transportError
  | requestFailed
  | deserializeFailed
deriving DecidableEq, Repr

/-- client.rs lines 350-373, `DebugAdapterClient::request::<R>`. The
asynchronous steps are passed in as arguments: `serialized_arguments` is
the outcome of `serde_json::to_value(arguments)`, `send_ok` the outcome of
`server_tx.send(...)`, `recv_outcome` the outcome of
`callback_rx.recv().await` (outer layer: channel closed; inner layer: the
`Result<Response>` the transport delivered), and `deser` is
`serde_json::from_value::<R::Response>`. The decision logic is verbatim:
serialize first (fail before any I/O), send, await, then on a received
Response branch on `success`, deserializing `body.unwrap_or_default()`
when true. -/
def request {ρ : Type} (serialized_arguments : Except String Json)
    (send_ok : Bool) (recv_outcome : Except Unit (Except String Response))
    (deser : Json → Option ρ) : Except RequestError ρ :=
  match serialized_arguments with
  | .error _ => .error .serializeFailed
  | .ok _ =>
    match send_ok with
    | false => .error .sendFailed
    | true =>
      match recv_outcome with
      | .error _ => .error .channelClosed
      | .ok (.error _) => .error .transportError
      | .ok (.ok response) =>
        match response.success with
        | true =>
          match deser (response.body.getD Json.jsonDefault) with
          | some r => .ok r
          | none => .error .deserializeFailed
        | false => .error .requestFailed

/-- The modulus of u64 arithmetic: the request counter is an AtomicU64,
so its values live in [0, 2^64). -/
def U64_MOD : Nat := 2 ^ 64

/-- client.rs line 289: `request_count: AtomicU64::new(1)` — the counter a
fresh client starts with. -/
def initial_request_count : Nat := 1

/-- client.rs lines 391-393, `next_request_id`:
`self.request_count.fetch_add(1, Ordering::Relaxed)` returns the current
counter value and stores the incremented one. Rust's atomic fetch_add
performs wrapping u64 arithmetic, embedded here as explicit reduction
modulo 2^64 of both the returned value and the stored successor. -/
def next_request_id (request_count : Nat) : Nat × Nat :=
  (request_count % U64_MOD, (request_count + 1) % U64_MOD)

/-- The ids handed out by `calls` successive invocations of
`next_request_id` starting from counter value `request_count`. An atomic
fetch_add linearizes, so any concurrent execution issues the ids of some
sequential order; this function is that sequential order. -/
def issued_ids : Nat → Nat → List Nat
  | 0, _ => []
  | calls + 1, request_count =>
    let step := next_request_id request_count
    step.1 :: issued_ids calls step.2

/-- Adapter capability snapshot, declared in the external dap_types crate
(an opaque serializable contract per the spec); modelled by three
representative optional feature flags. `Default` gives all-None. -/
structure Capabilities where
  supports_configuration_done_request : Option Bool
  supports_step_back : Option Bool
  supports_restart_request : Option Bool
deriving DecidableEq, Repr

/-- `Capabilities::default()`: every optional feature flag absent. -/
def Capabilities.empty : Capabilities := ⟨none, none, none⟩

/-- client.rs lines 387-389, `capabilities()`:
`self.capabilities.lock().clone().unwrap_or_default()`. The
`Arc<Mutex<Option<Capabilities>>>` cell contents are the argument. -/
def capabilities (cell : Option Capabilities) : Capabilities :=
  cell.getD Capabilities.empty

/-- client.rs lines 409-434, `initialize` (named init_capabilities here
because the source name is reserved by the verification environment):
issues the Initialize request; on error the `?` propagates it and the
capabilities cell is untouched; on success the snapshot is stored in the
cell and also returned. Returns (new cell contents, returned result). -/
def init_capabilities (cell : Option Capabilities)
    (request_outcome : Except RequestError Capabilities) :
    Option Capabilities × Except RequestError Capabilities :=
  match request_outcome with
  | .error e => (cell, .error e)
  | .ok caps => (some caps, .ok caps)

/-- client.rs lines 336-346, `handle_recv`: forward each payload received
from the transport's channel to the client channel; Event and Request are
forwarded as-is, the Response arm is `unreachable!()` — modelled as `none`
(a panic aborts the loop and produces no forwarded list). -/
def handle_recv : List Payload → Option (List Payload)
  | [] => some []
  | Payload.event ev :: rest =>
    (handle_recv rest).map (fun out => Payload.event ev :: out)
  | Payload.response _ :: _ => none
  | Payload.request req :: rest =>
    (handle_recv rest).map (fun out => Payload.request req :: out)

/-- client.rs lines 316-334, `handle_events`: drain the client channel; an
Event payload is handed to the event handler, any other payload is logged
with `log::error!` and skipped. Returns (handler invocations in order,
logged payloads in order); the function is total — no arm panics. -/
def handle_events : List Payload → List Events × List Payload
  | [] => ([], [])
  | Payload.event ev :: rest =>
    let out := handle_events rest
    (ev :: out.1, out.2)
  | p :: rest =>
    let out := handle_events rest
    (out.1, p :: out.2)

/-- Holder of the adapter-specific launch/attach arguments inside the
debug configuration. Declared in the task crate (outside the provided
sources); client.rs only reads its `args` field
(`config.request_args.as_ref().map(|v| v.args.clone())`). -/
structure DebugRequestArgs where
  args : Json

/-- Debug adapter configuration from the task crate (outside the provided
sources); modelled by the fields client.rs reads: the adapter id and the
optional stored request arguments. -/
structure DebugAdapterConfig where
  id : String
  request_args : Option DebugRequestArgs

/-- util::ResultExt::log_err: log the error, return `Ok` values as
`Some` and errors as `None` — the error is swallowed. -/
def log_err {ε α : Type} (r : Except ε α) : Option α :=
  match r with
  | .ok a => some a
  | .error _ => none

/-- LaunchRequestArguments (dap_types): a raw adapter-specific JSON blob. -/
structure LaunchRequestArguments where
  raw : Json

/-- AttachRequestArguments (dap_types): a raw adapter-specific JSON blob. -/
structure AttachRequestArguments where
  raw : Json

/-- RestartArguments (dap_types): a raw adapter-specific JSON blob. -/
structure RestartArguments where
  raw : Json

/-- PauseArguments (dap_types): the thread to pause. -/
structure PauseArguments where
  thread_id : Nat
deriving DecidableEq, Repr

/-- DisconnectArguments (dap_types): the three optional disconnect flags. -/
structure DisconnectArguments where
  restart : Option Bool
  terminate_debuggee : Option Bool
  suspend_debuggee : Option Bool
deriving DecidableEq, Repr

/-- client.rs lines 436-441, `launch`: the arguments sent are
`LaunchRequestArguments { raw: args.unwrap_or(Value::Null) }`. -/
def launch_arguments (args : Option Json) : LaunchRequestArguments :=
  ⟨args.getD Json.null⟩

/-- client.rs lines 443-448, `attach`: the arguments sent are
`AttachRequestArguments { raw: args.unwrap_or(Value::Null) }`. -/
def attach_arguments (args : Option Json) : AttachRequestArguments :=
  ⟨args.getD Json.null⟩

/-- client.rs lines 495-506, `restart`: the arguments sent are the stored
configuration's request args (`config.request_args.map(|v| v.args)`), or
Value::Null when the configuration holds none. -/
def restart_arguments (config : DebugAdapterConfig) : RestartArguments :=
  ⟨(config.request_args.map (fun v => v.args)).getD Json.null⟩

/-- client.rs `restart` result handling: `.await.log_err()` — whatever the
request's outcome, the method returns unit. -/
def restart_result (request_outcome : Except RequestError Unit) : Unit :=
  let _ := log_err request_outcome
  ()

/-- client.rs lines 508-512, `pause`: sends PauseArguments { thread_id }. -/
def pause_arguments (thread_id : Nat) : PauseArguments :=
  ⟨thread_id⟩

/-- client.rs `pause` result handling: `.await.log_err()`. -/
def pause_result (request_outcome : Except RequestError Unit) : Unit :=
  let _ := log_err request_outcome
  ()

/-- client.rs lines 514-522, `stop`: sends a Disconnect request with
restart=Some(false), terminate_debuggee=Some(false),
suspend_debuggee=Some(false). -/
def stop_arguments : DisconnectArguments :=
  ⟨some false, some false, some false⟩

/-- client.rs `stop` result handling: `.await.log_err()`. -/
def stop_result (request_outcome : Except RequestError Unit) : Unit :=
  let _ := log_err request_outcome
  ()

/-- Source descriptor (dap_types), with the eight fields client.rs fills;
payload types of the fields the client never sets are modelled as raw
JSON. -/
structure Source where
  path : Option String
  name : Option String
  source_reference : Option Nat
  presentation_hint : Option String
  origin : Option String
  sources : Option (List Json)
  adapter_data : Option Json
  checksums : Option (List Json)

/-- SourceBreakpoint (dap_types): requested line plus optional column and
condition. -/
structure SourceBreakpoint where
  line : Nat
  column : Option Nat
  condition : Option String
deriving DecidableEq, Repr

/-- SetBreakpointsArguments (dap_types): the source descriptor, the
requested breakpoints, and two optional fields the client leaves unset. -/
structure SetBreakpointsArguments where
  source : Source
  breakpoints : Option (List SourceBreakpoint)
  source_modified : Option Bool
  lines : Option (List Nat)

/-- client.rs lines 524-547, `set_breakpoints`: the arguments sent.
`adapter_data` is `self.config.request_args.clone().map(|c| c.args)`; the
Source carries `path` (lossy string of the PathBuf) and that adapter_data,
every other Source field None; `breakpoints` is passed through unchanged;
`source_modified` and `lines` are None. -/
def set_breakpoints_arguments (config : DebugAdapterConfig) (path : String)
    (breakpoints : Option (List SourceBreakpoint)) : SetBreakpointsArguments :=
  ⟨⟨some path, none, none, none, none, none,
      config.request_args.map (fun c => c.args), none⟩,
    breakpoints, none, none⟩

/-- client.rs `set_breakpoints` result: the adapter's response is returned
as-is (the method body is a single `self.request::<SetBreakpoints>(..)
.await` with no post-processing). `σ` stands for SetBreakpointsResponse,
an opaque dap_types payload. -/
def set_breakpoints_result {σ : Type}
    (request_outcome : Except RequestError σ) : Except RequestError σ :=
  request_outcome

/-- Outcome of `create_tcp_client` (client.rs lines 134-190), with the
distinct exits the function can take. -/
inductive TcpCreateResult where
  | launchError
  | connectError
  | panicMissingPort
  | connected (port : Nat)
deriving DecidableEq, Repr

/-- client.rs lines 193-202, `get_port`: bind an ephemeral listener on
127.0.0.1:0 and read back the assigned port; each fallible step is a `?`
inside `Some(..)`, so the function yields the allocated port or None when
binding (or reading the local address) failed. The operating-system
outcome is the argument. -/
def get_port (bind_result : Option Nat) : Option Nat :=
  match bind_result with
  | some port => some port
  | none => none

/-- client.rs lines 134-190, `create_tcp_client` control flow. Inputs are
the configured port (`host.port`), the outcome of `get_port` (consulted
only when no port is configured), and the outcomes of process spawn and
TCP connect. Returns the exit taken and whether the adapter process had
been spawned by then. The source computes `port` first, then spawns the
process, then (after the optional delay) calls `port.unwrap()` to build
the socket address — so a missing port panics after the spawn. -/
def create_tcp_client (host_port : Option Nat) (allocated_port : Option Nat)
    (spawn_ok : Bool) (connect_ok : Bool) : TcpCreateResult × Bool :=
  let port : Option Nat :=
    match host_port with
    | some p => some p
    | none => allocated_port
  match spawn_ok with
  | false => (TcpCreateResult.launchError, false)
  | true =>
    match port with
    | none => (TcpCreateResult.panicMissingPort, true)
    | some p =>
      match connect_ok with
      | true => (TcpCreateResult.connected p, true)
      | false => (TcpCreateResult.connectError, true)

/-- Unfolding of `request` for the case where a Response was received:
the outcome is decided by the response's success flag together with the
deserialization of the defaulted body. -/
theorem request_recv_unfold {ρ : Type} (j : Json) (deser : Json → Option ρ)
    (response : Response) :
    request (Except.ok j) true (Except.ok (Except.ok response)) deser =
      match response.success with
      | true =>
        match deser (response.body.getD Json.jsonDefault) with
        | some r => Except.ok r
        | none => Except.error RequestError.deserializeFailed
      | false => Except.error RequestError.requestFailed := by
  obtain ⟨rs, suc, body, msg⟩ := response
  cases suc <;> rfl

/-- Claim C1: once a Response has been received, `request` returns a
deserialized value exactly when the success flag is true and the body
(defaulted to JSON null when absent) deserializes into the command's
declared response shape; a false flag yields the request-failed error, a
failing deserialization yields the deserialization error, and the default
substituted for an absent body is JSON null. -/
theorem request_success_iff {ρ : Type} (j : Json) (deser : Json → Option ρ)
    (response : Response) (r : ρ) :
    (request (Except.ok j) true (Except.ok (Except.ok response)) deser
        = Except.ok r ↔
      response.success = true ∧
        deser (response.body.getD Json.jsonDefault) = some r) ∧
    (response.success = false →
      request (Except.ok j) true (Except.ok (Except.ok response)) deser
        = Except.error RequestError.requestFailed) ∧
    (response.success = true →
      deser (response.body.getD Json.jsonDefault) = none →
      request (Except.ok j) true (Except.ok (Except.ok response)) deser
        = Except.error RequestError.deserializeFailed) ∧
    (response.body = none →
      response.body.getD Json.jsonDefault = Json.null) ∧
    Json.jsonDefault = Json.null := by
  rw [request_recv_unfold j deser response]
  refine ⟨?_, ?_, ?_, fun h => by simp [h, Json.jsonDefault], rfl⟩
  · cases hs : response.success <;>
      cases hd : deser (response.body.getD Json.jsonDefault) <;> simp
  · cases hs : response.success <;>
      cases hd : deser (response.body.getD Json.jsonDefault) <;> simp
  · cases hs : response.success <;>
      cases hd : deser (response.body.getD Json.jsonDefault) <;> simp

/-- Claim C1 witness: a Response with success flag false makes `request`
return the request-failed error (the identity deserializer would have
accepted the body). -/
theorem request_success_iff_witness :
    request (Except.ok Json.null) true
        (Except.ok (Except.ok ⟨1, false, none, none⟩))
        (fun v => some v) = Except.error RequestError.requestFailed ∧
    request (Except.ok Json.null) true
        (Except.ok (Except.ok ⟨1, true, none, none⟩))
        (fun _ => (none : Option Json)) =
      Except.error RequestError.deserializeFailed ∧
    (Option.getD (none : Option Json) Json.jsonDefault) = Json.null :=
  ⟨(request_success_iff Json.null (fun v => some v)
      ⟨1, false, none, none⟩ Json.null).2.1 rfl,
    (request_success_iff Json.null (fun _ => (none : Option Json))
      ⟨1, true, none, none⟩ Json.null).2.2.1 rfl rfl,
    (request_success_iff Json.null (fun v => some v)
      ⟨1, true, none, none⟩ Json.null).2.2.2.1 rfl⟩

/-- Pointwise characterisation of the issued ids: the call at index `i`
is handed (request_count + i) reduced modulo 2^64. -/
theorem issued_ids_getElem (calls : Nat) : ∀ request_count i : Nat,
    i < calls →
    (issued_ids calls request_count)[i]? =
      some ((request_count + i) % U64_MOD) := by
  induction calls with
  | zero =>
    intro c i h
    exact absurd h (Nat.not_lt_zero i)
  | succ n ih =>
    intro c i h
    show ((c % U64_MOD) :: issued_ids n ((c + 1) % U64_MOD))[i]? = _
    cases i with
    | zero =>
      rw [List.getElem?_cons_zero, Nat.add_zero]
    | succ k =>
      rw [List.getElem?_cons_succ, ih ((c + 1) % U64_MOD) k (by omega),
        Nat.mod_add_mod]
      have hk : c + 1 + k = c + (k + 1) := by omega
      rw [hk]

/-- Sequential characterisation of the counter while no wrap-around
occurs: as long as request_count + calls stays within the u64 range, the
issued ids are exactly request_count, request_count+1, ... . -/
theorem issued_ids_no_wrap (calls : Nat) : ∀ request_count : Nat,
    request_count + calls ≤ U64_MOD →
    issued_ids calls request_count = List.range' request_count calls := by
  induction calls with
  | zero => intro c _; rfl
  | succ n ih =>
    intro c hc
    show (c % U64_MOD) :: issued_ids n ((c + 1) % U64_MOD) =
      List.range' c (n + 1)
    have hcW : c < U64_MOD := by omega
    rw [List.range'_succ, Nat.mod_eq_of_lt hcW]
    by_cases h1 : c + 1 < U64_MOD
    · rw [Nat.mod_eq_of_lt h1, ih (c + 1) (by omega)]
    · have hn : n = 0 := by omega
      subst hn
      rfl

/-- Claim C2 counterexample: the AtomicU64 counter wraps. Starting from
the construction value 1, the call at index 0 is issued id 1, but the call
at index 2^64 - 1 is issued id 0 — a later sequence number smaller than an
earlier one — refuting unconditional strict increase and uniqueness (one
further call would issue the duplicate id 1). -/
theorem next_request_id_wrap_counterexample :
    (issued_ids U64_MOD initial_request_count)[0]? = some 1 ∧
    (issued_ids U64_MOD initial_request_count)[U64_MOD - 1]? = some 0 ∧
    (0 : Nat) < 1 := by
  have hpos : 0 < U64_MOD := by decide
  refine ⟨?_, ?_, Nat.zero_lt_one⟩
  · rw [issued_ids_getElem U64_MOD initial_request_count 0 hpos,
      Nat.add_zero]
    have h1 : initial_request_count % U64_MOD = 1 :=
      Nat.mod_eq_of_lt (by decide)
    rw [h1]
  · rw [issued_ids_getElem U64_MOD initial_request_count (U64_MOD - 1)
      (by omega)]
    have h2 : initial_request_count + (U64_MOD - 1) = U64_MOD := by
      show 1 + (U64_MOD - 1) = U64_MOD
      omega
    rw [h2, Nat.mod_self]

/-- Claim C2 amended: a fresh client's counter holds 1 and — as long as
the 2^64 id space of the u64 counter is not exhausted — successive calls
of next_request_id issue exactly 1, 2, ..., calls: a pairwise strictly
increasing, duplicate-free sequence whose first element is 1, so within
that bound every id is fresh and exceeds all previously issued ids. An
atomic fetch_add on one cell linearizes even at relaxed ordering, so a
concurrent execution issues the ids of this sequential order. -/
theorem next_request_id_seq (calls : Nat) (h : calls < U64_MOD) :
    issued_ids calls initial_request_count = List.range' 1 calls ∧
    List.Pairwise (fun a b => a < b)
      (issued_ids calls initial_request_count) ∧
    List.Nodup (issued_ids calls initial_request_count) ∧
    (issued_ids calls initial_request_count).head? =
      if calls = 0 then none else some 1 := by
  have h1 : issued_ids calls initial_request_count = List.range' 1 calls :=
    issued_ids_no_wrap calls 1 (by omega)
  refine ⟨h1, ?_, ?_, ?_⟩
  · rw [h1]
    exact List.pairwise_lt_range' 1 calls
  · rw [h1]
    exact List.nodup_range' 1 calls
  · rw [h1, List.head?_range']

/-- Claim C2 witness: three calls on a fresh client issue 1, 2, 3 in
strictly increasing order. -/
theorem next_request_id_seq_witness :
    issued_ids 3 initial_request_count = [1, 2, 3] ∧
    List.Pairwise (fun a b => a < b) (issued_ids 3 initial_request_count) :=
  ⟨((next_request_id_seq 3 (by decide)).1).trans rfl,
    (next_request_id_seq 3 (by decide)).2.1⟩

/-- Claim C4: under the transport invariant that no Response payload is
put on the client channel, handle_recv forwards every payload — Event and
Request alike — onward in order, unchanged; a Response at the head of the
channel would hit the `unreachable!()` arm (modelled none); and
handle_events, a total function (it never panics), invokes the event
handler exactly on the Event payloads in wire order while merely logging
every other (Request-shaped) payload. -/
theorem dispatch_routes_events (ps : List Payload) (r0 : Response)
    (rest : List Payload) :
    ((∀ resp : Response, Payload.response resp ∉ ps) →
      handle_recv ps = some ps) ∧
    handle_recv (Payload.response r0 :: rest) = none ∧
    (handle_events ps).1 = ps.filterMap (fun p =>
      match p with
      | Payload.event e => some e
      | _ => none) ∧
    (handle_events ps).2 = ps.filter (fun p =>
      match p with
      | Payload.event _ => false
      | _ => true) := by
  refine ⟨?_, rfl, ?_, ?_⟩
  · induction ps with
    | nil => intro _; rfl
    | cons p tl ih =>
      intro hno
      have htl : handle_recv tl = some tl :=
        ih (fun resp hmem => hno resp (List.mem_cons_of_mem p hmem))
      cases p with
      | event e => simp [handle_recv, htl]
      | response resp => exact absurd (List.mem_cons_self _ _) (hno resp)
      | request req => simp [handle_recv, htl]
  · induction ps with
    | nil => rfl
    | cons p tl ih =>
      cases p <;> simp [handle_events, List.filterMap_cons, ih]
  · induction ps with
    | nil => rfl
    | cons p tl ih =>
      cases p <;> simp [handle_events, List.filter_cons, ih]

/-- Claim C4 witness: a channel trace of one event followed by one reverse
request is forwarded unchanged and in order by handle_recv. -/
theorem dispatch_routes_events_witness :
    handle_recv [Payload.event ⟨"stopped", none⟩,
        Payload.request ⟨1, "runInTerminal", none, false⟩] =
      some [Payload.event ⟨"stopped", none⟩,
        Payload.request ⟨1, "runInTerminal", none, false⟩] :=
  (dispatch_routes_events
      [Payload.event ⟨"stopped", none⟩,
        Payload.request ⟨1, "runInTerminal", none, false⟩]
      ⟨1, true, none, none⟩ []).1
    (fun resp hmem => by
      rcases List.mem_cons.mp hmem with h | hmem2
      · exact Payload.noConfusion h
      · rcases List.mem_cons.mp hmem2 with h | hmem3
        · exact Payload.noConfusion h
        · exact List.not_mem_nil _ hmem3)

/-- Claim C3: before a successful initialize the capabilities cell is None
and `capabilities()` returns the empty default (a total function — it
never fails); a successful initialize stores the adapter's snapshot in the
cell and every subsequent `capabilities()` read returns it; a failed
initialize leaves the cell untouched. -/
theorem capabilities_before_after (cell : Option Capabilities)
    (caps : Capabilities) (e : RequestError) :
    capabilities none = Capabilities.empty ∧
    init_capabilities cell (Except.ok caps) = (some caps, Except.ok caps) ∧
    capabilities (some caps) = caps ∧
    init_capabilities cell (Except.error e) = (cell, Except.error e) :=
  ⟨rfl, rfl, rfl, rfl⟩

/-- Claim C5: `thread_state_by_id` returns the cloned snapshot of a cached
thread id, and on an uncached id it takes the `unwrap()` panic path
(modelled `none`) rather than producing any state value. -/
theorem thread_state_by_id_spec (m : ThreadStates) (thread_id : Nat) :
    (∀ s, hashMapGet m thread_id = some s →
      thread_state_by_id m thread_id = some s) ∧
    (hashMapGet m thread_id = none →
      thread_state_by_id m thread_id = none) :=
  ⟨fun _ h => h, fun h => h⟩

/-- Claim C5 witness: on the cache holding thread 7, looking up 7 returns
the snapshot and looking up 8 hits the panic path. -/
theorem thread_state_by_id_witness :
    thread_state_by_id [(7, ThreadState.stateDefault)] 7
        = some ThreadState.stateDefault ∧
    thread_state_by_id [(7, ThreadState.stateDefault)] 8 = none :=
  ⟨(thread_state_by_id_spec [(7, ThreadState.stateDefault)] 7).1
      ThreadState.stateDefault rfl,
    (thread_state_by_id_spec [(7, ThreadState.stateDefault)] 8).2 rfl⟩

/-- Claim C6: `update_thread_state_status` on a cached id replaces exactly
the status field of that entry (stack frames, scopes, variables and the
selected frame are untouched), leaves every other key's entry unchanged,
and on an uncached id is a no-op returning the cache as it was. -/
theorem update_thread_state_status_spec (m : ThreadStates) (thread_id : Nat)
    (status : ThreadStatus) :
    (hashMapGet m thread_id = none →
      update_thread_state_status m thread_id status = m) ∧
    (∀ s, hashMapGet m thread_id = some s →
      hashMapGet (update_thread_state_status m thread_id status) thread_id =
        some ⟨status, s.stack_frames, s.scopes, s.vars,
              s.current_stack_frame_id⟩) ∧
    (∀ j, j ≠ thread_id →
      hashMapGet (update_thread_state_status m thread_id status) j =
        hashMapGet m j) := by
  induction m with
  | nil =>
    refine ⟨fun _ => rfl, ?_, fun j _ => rfl⟩
    intro s h
    exact Option.noConfusion h
  | cons hd tl ih =>
    obtain ⟨k, s0⟩ := hd
    by_cases hk : k = thread_id
    · refine ⟨?_, ?_, ?_⟩
      · intro habs
        rw [hashMapGet, if_pos hk] at habs
        exact Option.noConfusion habs
      · intro s hs
        rw [hashMapGet, if_pos hk] at hs
        rw [update_thread_state_status, if_pos hk, hashMapGet, if_pos hk,
          Option.some_inj.mp hs]
      · intro j hj
        rw [update_thread_state_status, if_pos hk, hashMapGet, hashMapGet,
          if_neg (fun (h : k = j) => hj (h ▸ hk)),
          if_neg (fun (h : k = j) => hj (h ▸ hk))]
    · refine ⟨?_, ?_, ?_⟩
      · intro habs
        rw [hashMapGet, if_neg hk] at habs
        rw [update_thread_state_status, if_neg hk, ih.1 habs]
      · intro s hs
        rw [hashMapGet, if_neg hk] at hs
        rw [update_thread_state_status, if_neg hk, hashMapGet, if_neg hk,
          ih.2.1 s hs]
      · intro j hj
        by_cases hkj : k = j
        · rw [update_thread_state_status, if_neg hk, hashMapGet, if_pos hkj,
            hashMapGet, if_pos hkj]
        · rw [update_thread_state_status, if_neg hk, hashMapGet, if_neg hkj,
            hashMapGet, if_neg hkj, ih.2.2 j hj]

/-- Claim C6 witness: updating thread 2 on a cache holding only thread 1
is a no-op, and updating thread 1 changes exactly its status. -/
theorem update_thread_state_status_witness :
    update_thread_state_status [(1, ThreadState.stateDefault)] 2
        ThreadStatus.stopped = [(1, ThreadState.stateDefault)] ∧
    hashMapGet (update_thread_state_status [(1, ThreadState.stateDefault)] 1
        ThreadStatus.stopped) 1 =
      some ⟨ThreadStatus.stopped, [], [], [], none⟩ ∧
    hashMapGet (update_thread_state_status [(1, ThreadState.stateDefault)] 1
        ThreadStatus.stopped) 2 =
      hashMapGet [(1, ThreadState.stateDefault)] 2 :=
  ⟨(update_thread_state_status_spec [(1, ThreadState.stateDefault)] 2
      ThreadStatus.stopped).1 rfl,
    (update_thread_state_status_spec [(1, ThreadState.stateDefault)] 1
      ThreadStatus.stopped).2.1 ThreadState.stateDefault rfl,
    (update_thread_state_status_spec [(1, ThreadState.stateDefault)] 1
      ThreadStatus.stopped).2.2 2 (by decide)⟩

/-- Claim C7: `restart`, `pause` and `stop` return unit for every request
outcome — in particular for every error — because `.log_err()` swallows
the failure; `restart` re-sends the argument blob stored in the
configuration (Value::Null when none is stored); `stop` sends Disconnect
with restart, terminate_debuggee and suspend_debuggee all Some(false). -/
theorem best_effort_commands (blob : Json) (aid : String)
    (outcome : Except RequestError Unit) (e : RequestError)
    (thread_id : Nat) :
    restart_result (Except.error e) = () ∧
    pause_result (Except.error e) = () ∧
    stop_result (Except.error e) = () ∧
    restart_result outcome = () ∧
    pause_result outcome = () ∧
    stop_result outcome = () ∧
    (restart_arguments ⟨aid, some ⟨blob⟩⟩).raw = blob ∧
    (restart_arguments ⟨aid, none⟩).raw = Json.null ∧
    pause_arguments thread_id = ⟨thread_id⟩ ∧
    stop_arguments.restart = some false ∧
    stop_arguments.terminate_debuggee = some false :=
  ⟨rfl, rfl, rfl, rfl, rfl, rfl, rfl, rfl, rfl, rfl, rfl⟩

/-- Claim C8 counterexample: with no argument value supplied, `launch`
(and `attach`) substitutes Value::Null for the raw arguments, and JSON
null is not an object at all, empty or otherwise — refuting "they send an
empty object in its place". -/
theorem launch_no_args_sends_null :
    (launch_arguments none).raw = Json.null ∧
    (attach_arguments none).raw = Json.null ∧
    (launch_arguments none).raw.isObj = false ∧
    (Json.obj []).isObj = true :=
  ⟨rfl, rfl, rfl, rfl⟩

/-- Claim C8 amended: `launch` and `attach` forward a supplied argument
blob unchanged as the request's raw arguments, and substitute JSON null
when no value is supplied. -/
theorem launch_attach_forward_args (v : Json) :
    (launch_arguments (some v)).raw = v ∧
    (attach_arguments (some v)).raw = v ∧
    (launch_arguments none).raw = Json.null ∧
    (attach_arguments none).raw = Json.null :=
  ⟨rfl, rfl, rfl, rfl⟩

/-- Claim C9 counterexample: when the stored configuration carries request
arguments, the Source descriptor sent by `set_breakpoints` carries them in
its adapter_data field — so the descriptor does not carry "only the
path". -/
theorem set_breakpoints_carries_adapter_data :
    (set_breakpoints_arguments ⟨"lldb", some ⟨Json.str "cfg"⟩⟩
        "/tmp/main.rs" none).source.adapter_data = some (Json.str "cfg") ∧
    ((set_breakpoints_arguments ⟨"lldb", some ⟨Json.str "cfg"⟩⟩
        "/tmp/main.rs" none).source.adapter_data).isSome = true :=
  ⟨rfl, rfl⟩

/-- Claim C9 amended: the Source descriptor sent by `set_breakpoints`
carries the path and the configuration's adapter data; name, source
reference, presentation hint, origin, nested sources and checksums are all
None (no inline source text); the breakpoint list is forwarded unchanged,
source_modified and lines are None, and the adapter's verification
response is returned without post-processing. -/
theorem set_breakpoints_arguments_spec {σ : Type}
    (config : DebugAdapterConfig) (path : String)
    (breakpoints : Option (List SourceBreakpoint))
    (outcome : Except RequestError σ) :
    (set_breakpoints_arguments config path breakpoints).source.path
        = some path ∧
    (set_breakpoints_arguments config path breakpoints).source.name = none ∧
    (set_breakpoints_arguments config path breakpoints).source.source_reference
        = none ∧
    (set_breakpoints_arguments config path
        breakpoints).source.presentation_hint = none ∧
    (set_breakpoints_arguments config path breakpoints).source.origin
        = none ∧
    (set_breakpoints_arguments config path breakpoints).source.sources
        = none ∧
    (set_breakpoints_arguments config path breakpoints).source.adapter_data
        = config.request_args.map (fun c => c.args) ∧
    (set_breakpoints_arguments config path breakpoints).source.checksums
        = none ∧
    (set_breakpoints_arguments config path breakpoints).breakpoints
        = breakpoints ∧
    (set_breakpoints_arguments config path breakpoints).source_modified
        = none ∧
    (set_breakpoints_arguments config path breakpoints).lines = none ∧
    set_breakpoints_result outcome = outcome :=
  ⟨rfl, rfl, rfl, rfl, rfl, rfl, rfl, rfl, rfl, rfl, rfl, rfl⟩

/-- Claim C10: in TCP mode with no configured port and a failed ephemeral
allocation (get_port yields none), `create_tcp_client` reaches the
`port.unwrap()` panic — after the adapter process was spawned — and does
not take the launch-error or connection-error exits, whatever the connect
outcome would have been. -/
theorem create_tcp_client_panics_on_missing_port (connect_ok : Bool) :
    create_tcp_client none (get_port none) true connect_ok =
      (TcpCreateResult.panicMissingPort, true) :=
  rfl

end DapClient
